import Mathlib

/-!
Shallow embedding of the SDN ML training script (`_train_ml_model.py`).

The script is sequential glue around external libraries (pandas, sklearn,
matplotlib, joblib).  The embedding below models the script's own control
flow and data flow exactly, and models each external library call by its
documented semantics:

* a pandas `DataFrame` is a list of named columns plus numeric rows; column
  selection with a missing column raises a `KeyError` naming the missing
  columns;
* `StandardScaler` stores per-column mean and scale, where the library's
  `scale_` is the square root of the per-column variance; the square root is
  computed by external numeric code, so the development is parameterised by
  a function `sq : ℚ → ℚ` standing for it (no claim depends on its values);
* the four sklearn estimators are opaque learning algorithms, modelled as
  values of `ModelSpec` (fit on the train partition, yielding a per-row
  prediction function plus the optional `feature_importances_` attribute
  that only the tree-based estimators expose);
* `joblib.dump`/`joblib.load` are modelled by an association-list store from
  file names to bundles, where a later dump shadows an earlier one;
* the seeded deterministic shuffle inside `train_test_split` is modelled as
  the identity permutation (the split sizes follow the library's
  `test_size=0.2` rule).

Python exceptions are modelled with `Except PyError`; `print` output that
claims mention is modelled as explicit message lists.
-/

/-- Error values standing for the Python exceptions the script can raise or
propagate from the libraries it calls. -/
inductive PyError where
  | keyError (missing : List String)
  | attributeError
  | fileNotFoundError
deriving DecidableEq

/-- In-memory table standing for a `pandas.DataFrame`: named columns and
numeric rows (row `r` holds the value of column `cols[i]` at position `i`). -/
structure DataFrame where
  cols : List String
  rows : List (List ℚ)
deriving DecidableEq

/-- Value of column `c` in row `r` (pandas column indexing). -/
def DataFrame.colVal (df : DataFrame) (r : List ℚ) (c : String) : ℚ :=
  r.getD (df.cols.indexOf c) 0

/-- Projection `df[cs]` for a list of columns: pandas raises a `KeyError`
naming exactly the requested columns that are not in the index. -/
def DataFrame.selectCols (df : DataFrame) (cs : List String) :
    Except PyError (List (List ℚ)) :=
  let missing := cs.filter (fun c => !(df.cols.contains c))
  if missing.isEmpty then
    .ok (df.rows.map (fun r => cs.map (fun c => df.colVal r c)))
  else
    .error (.keyError missing)

/-- Projection `df[c]` of a single column; `KeyError` when the column is
absent from the index. -/
def DataFrame.selectCol (df : DataFrame) (c : String) :
    Except PyError (List ℚ) :=
  if df.cols.contains c then .ok (df.rows.map (fun r => df.colVal r c))
  else .error (.keyError [c])

/-- Mean of a list of rationals (`0` on the empty list, by `x / 0 = 0`). -/
def listMean (l : List ℚ) : ℚ := l.sum / l.length

/-- Population variance (`ddof = 0`, as `StandardScaler` uses). -/
def listVar (l : List ℚ) : ℚ :=
  ((l.map (fun x => (x - listMean l) ^ 2)).sum) / l.length

/-- Fitted state of `sklearn.preprocessing.StandardScaler`: per-column mean
and per-column scale.  The library's `scale_` is the square root of the
variance, computed by external numeric code abstracted as `sq`. -/
structure StandardScaler where
  mean : List ℚ
  scale : List ℚ

/-- A fresh, unfitted `StandardScaler()` as built in `__init__`. -/
def StandardScaler.unfitted : StandardScaler := ⟨[], []⟩

/-- `scaler.fit(X)`: per-column mean, and scale `sq (variance)`. -/
def StandardScaler.fitOn (sq : ℚ → ℚ) (X : List (List ℚ)) : StandardScaler :=
  ⟨X.transpose.map listMean, X.transpose.map (fun c => sq (listVar c))⟩

/-- `scaler.transform` on one row: `(x - mean) / scale` per column. -/
def StandardScaler.transformRow (sc : StandardScaler) (r : List ℚ) : List ℚ :=
  List.zipWith (fun x p => (x - p.1) / p.2) r (sc.mean.zip sc.scale)

/-- `scaler.transform(X)` applied row by row, leaving the fitted parameters
untouched. -/
def StandardScaler.transform (sc : StandardScaler) (X : List (List ℚ)) :
    List (List ℚ) :=
  X.map sc.transformRow

/-- A fitted classifier: a per-row prediction function (so `model.predict(X)`
is `X.map predict`), plus the optional `feature_importances_` attribute that
only the tree-based estimators expose. -/
structure FittedModel where
  predict : List ℚ → ℚ
  featureImportances : Option (List ℚ)

/-- An unfitted classifier variant: `fit(X_train, y_train)` yields a fitted
model.  The four sklearn estimators are opaque external algorithms, so the
development quantifies over values of this type. -/
abbrev ModelSpec := List (List ℚ) → List ℚ → FittedModel

/-- `sklearn.metrics.accuracy_score`: fraction of exactly matching labels. -/
def accuracy_score (y_true y_pred : List ℚ) : ℚ :=
  ((List.zipWith (fun a b => if a = b then (1 : ℚ) else 0) y_true y_pred).sum)
    / y_true.length

/-- Per-variant registry entry recorded by `train_models` in `self.models`. -/
structure TrainResult where
  model : FittedModel
  accuracy : ℚ
  predictions : List ℚ

/-- Persisted bundle written by `save_model` and read by `load_model`. -/
structure Bundle where
  model : FittedModel
  scaler : StandardScaler
  model_name : String
  accuracy : ℚ

/-- The artifact store standing for the filesystem as seen by `joblib`:
a path-to-bundle association list where a later dump shadows an earlier
one. -/
abbrev Store := List (String × Bundle)

/-- Mutable state of the `SDNMLTrainer` object.  `best_model_name` is `none`
while the Python attribute does not exist yet: it is first assigned inside
`train_models` or `load_model`, and reading it before that raises
`AttributeError`. -/
structure SDNMLTrainer where
  dataset_path : String
  models : List (String × TrainResult)
  scaler : StandardScaler
  best_model : Option FittedModel
  best_accuracy : ℚ
  best_model_name : Option String

/-- `SDNMLTrainer.__init__(dataset_path)`. -/
def SDNMLTrainer.init (path : String) : SDNMLTrainer :=
  ⟨path, [], StandardScaler.unfitted, none, 0, none⟩

/-- `load_data`: reads the CSV at `self.dataset_path`; any read failure is
caught and converted to `None`.  The filesystem-plus-parser is modelled as
`fs`, returning `none` for an unreadable or malformed path. -/
def SDNMLTrainer.load_data (st : SDNMLTrainer)
    (fs : String → Option DataFrame) : Option DataFrame :=
  fs st.dataset_path

/-- The seven feature columns fixed in `preprocess_data`. -/
def feature_cols : List String :=
  ["src_addr", "dest_addr", "src_battery", "dest_battery",
   "path_distance", "path_delay", "path_quality"]

/-- The target column fixed in `preprocess_data`. -/
def target_col : String := "chosen_path"

/-- `train_test_split(X, y, test_size=0.2, random_state=42, stratify=y)`:
a deterministic disjoint partition with `ceil(0.2 * n)` test rows (the
library's rounding rule).  The fixed-seed stratified permutation is modelled
as the identity permutation; no claim depends on which rows land where. -/
def train_test_split (X : List (List ℚ)) (y : List ℚ) :
    List (List ℚ) × List (List ℚ) × List ℚ × List ℚ :=
  let n := y.length
  let nTest := (n + 4) / 5
  (X.take (n - nTest), X.drop (n - nTest), y.take (n - nTest), y.drop (n - nTest))

/-- The six values returned by `preprocess_data`: scaled train/test features,
train/test labels, and the unscaled train/test features. -/
structure PrepOut where
  X_train_scaled : List (List ℚ)
  X_test_scaled : List (List ℚ)
  y_train : List ℚ
  y_test : List ℚ
  X_train : List (List ℚ)
  X_test : List (List ℚ)

/-- `preprocess_data(df)`: select the seven feature columns and the target,
split 80/20, fit the scaler on the train features only and transform both
partitions with the resulting parameters. -/
def SDNMLTrainer.preprocess_data (sq : ℚ → ℚ) (st : SDNMLTrainer)
    (df : DataFrame) : Except PyError (SDNMLTrainer × PrepOut) :=
  match df.selectCols feature_cols with
  | .error e => .error e
  | .ok X =>
    match df.selectCol target_col with
    | .error e => .error e
    | .ok y =>
      let parts := train_test_split X y
      let X_train := parts.1
      let X_test := parts.2.1
      let y_train := parts.2.2.1
      let y_test := parts.2.2.2
      let sc := StandardScaler.fitOn sq X_train
      .ok ({ st with scaler := sc },
           ⟨sc.transform X_train, sc.transform X_test, y_train, y_test,
            X_train, X_test⟩)

/-- Fit one variant on the train partition (`model.fit(X_train, y_train)`). -/
def fitVariant (X_train : List (List ℚ)) (y_train : List ℚ)
    (v : String × ModelSpec) : FittedModel :=
  v.2 X_train y_train

/-- The registry entry for one variant: fitted model, test accuracy and test
predictions. -/
def variantResult (X_train X_test : List (List ℚ)) (y_train y_test : List ℚ)
    (v : String × ModelSpec) : TrainResult :=
  let fitted := fitVariant X_train y_train v
  let y_pred := X_test.map fitted.predict
  ⟨fitted, accuracy_score y_test y_pred, y_pred⟩

/-- Test accuracy of one variant. -/
def variantAcc (X_train X_test : List (List ℚ)) (y_train y_test : List ℚ)
    (v : String × ModelSpec) : ℚ :=
  (variantResult X_train X_test y_train y_test v).accuracy

/-- The best-model update at the end of one loop iteration of
`train_models`: replace the running best only on strictly greater
accuracy. -/
def trainStep (X_train X_test : List (List ℚ)) (y_train y_test : List ℚ)
    (st : SDNMLTrainer) (v : String × ModelSpec) : SDNMLTrainer :=
  let acc := variantAcc X_train X_test y_train y_test v
  if st.best_accuracy < acc then
    { st with best_accuracy := acc,
              best_model := some (fitVariant X_train y_train v),
              best_model_name := some v.1 }
  else st

/-- The training loop of `train_models`: iterate the variants in order,
recording each result and updating the running best. -/
def trainLoop (X_train X_test : List (List ℚ)) (y_train y_test : List ℚ) :
    List (String × ModelSpec) → SDNMLTrainer →
      SDNMLTrainer × List (String × TrainResult)
  | [], st => (st, [])
  | v :: vs, st =>
    let st1 := trainStep X_train X_test y_train y_test st v
    ((trainLoop X_train X_test y_train y_test vs st1).1,
     (v.1, variantResult X_train X_test y_train y_test v) ::
       (trainLoop X_train X_test y_train y_test vs st1).2)

/-- `train_models`: run the loop over the fixed variant list, then store the
whole results registry in `self.models`. -/
def SDNMLTrainer.train_models (variants : List (String × ModelSpec))
    (X_train X_test : List (List ℚ)) (y_train y_test : List ℚ)
    (st : SDNMLTrainer) : SDNMLTrainer × List (String × TrainResult) :=
  let out := trainLoop X_train X_test y_train y_test variants st
  ({ out.1 with models := out.2 }, out.2)

/-- `evaluate_models`: writes the comparison chart, then reports on the best
model (reading `self.best_model_name` raises `AttributeError` when the
attribute was never assigned, and the registry lookup raises `KeyError` when
the name is not registered).  Returns the chart files written. -/
def SDNMLTrainer.evaluate_models (st : SDNMLTrainer) (_y_test : List ℚ) :
    Except PyError (List String) :=
  match st.best_model_name with
  | none => .error .attributeError
  | some n =>
    match st.models.lookup n with
    | none => .error (.keyError [n])
    | some _ => .ok ["model_comparison.png", "confusion_matrix.png"]

/-- Descending ranking of features by importance
(`np.argsort(importances)[::-1]`). -/
def importanceRanking (featureNames : List String) (importances : List ℚ) :
    List (String × ℚ) :=
  (featureNames.zip importances).insertionSort (fun a b => b.2 ≤ a.2)

/-- The feature-importance report: the printed ranking and the chart file. -/
structure FeatReport where
  ranking : List (String × ℚ)
  file : String

/-- `feature_importance(X_train_original)`: only when the best model's name
is one of the two tree-based variants, read `feature_importances_`, print
the descending ranking and write `feature_importance.png`; otherwise do
nothing at all.  Reading a never-assigned attribute raises
`AttributeError`. -/
def SDNMLTrainer.feature_importance (st : SDNMLTrainer)
    (featureNames : List String) : Except PyError (Option FeatReport) :=
  match st.best_model_name with
  | none => .error .attributeError
  | some n =>
    if n ∈ (["Random Forest", "Decision Tree"] : List String) then
      match st.best_model with
      | none => .error .attributeError
      | some m =>
        match m.featureImportances with
        | none => .error .attributeError
        | some imp =>
          .ok (some ⟨importanceRanking featureNames imp,
                     "feature_importance.png"⟩)
    else .ok none

/-- `save_model(filename)`: when a best model exists, dump the four-field
bundle to `filename` and print a confirmation; when `self.best_model` is
still `None` (falsy), fall through the `if` and do nothing — no write and
no message. -/
def SDNMLTrainer.save_model (st : SDNMLTrainer) (filename : String)
    (store : Store) : Except PyError (Store × List String) :=
  match st.best_model with
  | none => .ok (store, [])
  | some m =>
    match st.best_model_name with
    | none => .error .attributeError
    | some n =>
      .ok ((filename, ⟨m, st.scaler, n, st.best_accuracy⟩) :: store,
           ["Model saved: " ++ filename])

/-- `load_model(filename)`: read the bundle (a missing file is a fatal
`FileNotFoundError`, not caught) and replace exactly the four bundle fields
of the trainer state. -/
def SDNMLTrainer.load_model (st : SDNMLTrainer) (filename : String)
    (store : Store) : Except PyError (SDNMLTrainer × List String) :=
  match List.lookup filename store with
  | none => .error .fileNotFoundError
  | some d =>
    .ok ({ st with best_model := some d.model, scaler := d.scaler,
                   best_model_name := some d.model_name,
                   best_accuracy := d.accuracy },
         ["Model loaded: " ++ d.model_name])

/-- `predict_path(...)`: with no trained model, print an error and return
`None`; otherwise scale the single-row input with the stored scaler and
return the first entry of the stored model's predictions.  The method
assigns no attribute, so the state comes back unchanged. -/
def SDNMLTrainer.predict_path (st : SDNMLTrainer)
    (src_addr dest_addr src_battery dest_battery
     path_distance path_delay path_quality : ℚ) :
    SDNMLTrainer × Option ℚ × List String :=
  match st.best_model with
  | none => (st, none, ["Error: No trained model available"])
  | some m =>
    let X_new := [[src_addr, dest_addr, src_battery, dest_battery,
                   path_distance, path_delay, path_quality]]
    let X_new_scaled := st.scaler.transform X_new
    (st, some ((X_new_scaled.map m.predict).headI), [])

/-- Everything observable that one `main()` run produces. -/
structure MainOut where
  trainer : SDNMLTrainer
  store : Store
  messages : List String
  files : List String
  examplePrediction : Option ℚ

/-- The two lines printed when the minimum-row guard fires. -/
def insufficientMsgs : List String :=
  ["Insufficient data for training!",
   "Please run the simulation longer to collect more samples."]

/-- `main()`: build the trainer on `sdn_dataset.csv`, load, guard on fewer
than 10 rows (or a failed load), then preprocess, train, evaluate, report
feature importance, save the best model and run the example prediction. -/
def mainRun (sq : ℚ → ℚ) (variants : List (String × ModelSpec))
    (fs : String → Option DataFrame) (store : Store) :
    Except PyError MainOut :=
  let trainer := SDNMLTrainer.init "sdn_dataset.csv"
  match trainer.load_data fs with
  | none => .ok ⟨trainer, store, insufficientMsgs, [], none⟩
  | some df =>
    if df.rows.length < 10 then
      .ok ⟨trainer, store, insufficientMsgs, [], none⟩
    else
      match trainer.preprocess_data sq df with
      | .error e => .error e
      | .ok (st1, prep) =>
        let st2 := (SDNMLTrainer.train_models variants prep.X_train_scaled
          prep.X_test_scaled prep.y_train prep.y_test st1).1
        match st2.evaluate_models prep.y_test with
        | .error e => .error e
        | .ok evFiles =>
          match st2.feature_importance feature_cols with
          | .error e => .error e
          | .ok fi =>
            match st2.save_model "sdn_best_model.pkl" store with
            | .error e => .error e
            | .ok (store1, msgs) =>
              let pred := (st2.predict_path 1 3 85 90 50 (1/20) 75).2.1
              .ok ⟨st2, store1, msgs,
                   evFiles ++
                     (match fi with | none => [] | some r => [r.file]),
                   pred⟩

/-- Predictions of a model on a feature matrix after scaling it with a given
scaler (the pipeline applied by `predict_path` and by any consumer of a
restored bundle). -/
def predictionsOn (m : FittedModel) (sc : StandardScaler)
    (X : List (List ℚ)) : List ℚ :=
  (sc.transform X).map m.predict

/-- `predict_path` assigns no attribute: the trainer state comes back
unchanged. -/
theorem predict_path_state_id (st : SDNMLTrainer) (a b c d e f g : ℚ) :
    (st.predict_path a b c d e f g).1 = st := by
  unfold SDNMLTrainer.predict_path
  cases st.best_model <;> rfl

/-- C6 counterexample: on a freshly initialised trainer (no best model),
`save_model` writes nothing and also prints nothing — its message list is
empty, refuting the claimed "emits a logged message" (the `print` sits
inside the `if self.best_model:` branch and there is no `else`). -/
theorem C6_counterexample :
    SDNMLTrainer.save_model (SDNMLTrainer.init "sdn_dataset.csv")
      "sdn_best_model.pkl" [] = .ok ([], []) := rfl

/-- C6 (amended): when no model has been trained yet, `save_model` is a
silent no-op — it writes no artifact and emits no message; when a best model
exists (with its name assigned), it bundles exactly the best model, the
scaler, the best model's name and the best accuracy into one artifact at the
given path and prints a confirmation. -/
theorem C6_save_model_spec (st : SDNMLTrainer) (fn : String) (store : Store) :
    (st.best_model = none → st.save_model fn store = .ok (store, [])) ∧
    (∀ m n, st.best_model = some m → st.best_model_name = some n →
      st.save_model fn store =
        .ok ((fn, ⟨m, st.scaler, n, st.best_accuracy⟩) :: store,
             ["Model saved: " ++ fn])) := by
  constructor
  · intro h
    simp [SDNMLTrainer.save_model, h]
  · intro m n hm hn
    simp [SDNMLTrainer.save_model, hm, hn]

/-- Witness for C6: both branches evaluated at concrete states. -/
theorem C6_witness :
    (SDNMLTrainer.init "p").save_model "f" [] = .ok ([], []) ∧
    ({ SDNMLTrainer.init "p" with
        best_model := some ⟨fun _ => 2, none⟩,
        best_model_name := some "Random Forest",
        best_accuracy := 1 } : SDNMLTrainer).save_model "f" [] =
      .ok ([("f", ⟨⟨fun _ => 2, none⟩, StandardScaler.unfitted,
                   "Random Forest", 1⟩)],
           ["Model saved: " ++ "f"]) :=
  ⟨(C6_save_model_spec (SDNMLTrainer.init "p") "f" []).1 rfl,
   (C6_save_model_spec _ "f" []).2 ⟨fun _ => 2, none⟩ "Random Forest" rfl rfl⟩

/-- C7: `predict_path` with no loaded model prints an error and returns
`None`, changing no state; otherwise it applies the stored scaler's
transform to the single seven-value row, then the stored model's predict,
and returns that single predicted label, changing no state. -/
theorem C7_predict_path_spec (st : SDNMLTrainer) (a b c d e f g : ℚ) :
    (st.best_model = none →
      st.predict_path a b c d e f g =
        (st, none, ["Error: No trained model available"])) ∧
    (∀ m, st.best_model = some m →
      st.predict_path a b c d e f g =
        (st, some (m.predict (st.scaler.transformRow [a, b, c, d, e, f, g])),
         [])) := by
  constructor
  · intro h
    simp [SDNMLTrainer.predict_path, h]
  · intro m h
    simp [SDNMLTrainer.predict_path, h, StandardScaler.transform]

/-- Witness for C7: the no-model branch at the script's example input. -/
theorem C7_witness :
    (SDNMLTrainer.init "sdn_dataset.csv").predict_path 1 3 85 90 50 (1/20) 75 =
      (SDNMLTrainer.init "sdn_dataset.csv", none,
       ["Error: No trained model available"]) :=
  (C7_predict_path_spec (SDNMLTrainer.init "sdn_dataset.csv")
    1 3 85 90 50 (1/20) 75).1 rfl

/-- C10: `load_model` replaces exactly the four bundle fields (best model,
scaler, best model name, best accuracy) and leaves every other field of the
trainer state unchanged, in particular the dataset path and the per-variant
model registry. -/
theorem C10_load_model_frame (st : SDNMLTrainer) (fn : String) (store : Store)
    (d : Bundle) (h : List.lookup fn store = some d) :
    ∃ st' log, st.load_model fn store = .ok (st', log) ∧
      st'.best_model = some d.model ∧
      st'.scaler = d.scaler ∧
      st'.best_model_name = some d.model_name ∧
      st'.best_accuracy = d.accuracy ∧
      st'.dataset_path = st.dataset_path ∧
      st'.models = st.models := by
  refine ⟨⟨st.dataset_path, st.models, d.scaler, some d.model,
           d.accuracy, some d.model_name⟩,
          ["Model loaded: " ++ d.model_name],
          ?_, rfl, rfl, rfl, rfl, rfl, rfl⟩
  simp [SDNMLTrainer.load_model, h]

/-- Witness for C10 at a concrete one-entry store. -/
theorem C10_witness :
    ∃ st' log,
      (SDNMLTrainer.init "sdn_dataset.csv").load_model "f"
          [("f", ⟨⟨fun _ => 3, none⟩, StandardScaler.unfitted, "SVM", 1⟩)] =
        .ok (st', log) ∧
      st'.best_model = some ⟨fun _ => 3, none⟩ ∧
      st'.scaler = StandardScaler.unfitted ∧
      st'.best_model_name = some "SVM" ∧
      st'.best_accuracy = 1 ∧
      st'.dataset_path = "sdn_dataset.csv" ∧
      st'.models = [] :=
  C10_load_model_frame (SDNMLTrainer.init "sdn_dataset.csv") "f"
    [("f", ⟨⟨fun _ => 3, none⟩, StandardScaler.unfitted, "SVM", 1⟩)]
    ⟨⟨fun _ => 3, none⟩, StandardScaler.unfitted, "SVM", 1⟩ rfl

/-- C2: saving a trained state's bundle to a path and then loading that path
restores a state with the identical best-model name and accuracy, and the
restored model plus scaler produce predictions identical to the pre-save
model on any (hence the same) test partition. -/
theorem C2_save_load_roundtrip (st st2 : SDNMLTrainer) (fn : String)
    (store : Store) (m : FittedModel) (n : String)
    (hm : st.best_model = some m) (hn : st.best_model_name = some n) :
    ∃ store1 log1 st' log2,
      st.save_model fn store = .ok (store1, log1) ∧
      st2.load_model fn store1 = .ok (st', log2) ∧
      st'.best_model_name = st.best_model_name ∧
      st'.best_accuracy = st.best_accuracy ∧
      ∃ m', st'.best_model = some m' ∧
        ∀ X_test, predictionsOn m' st'.scaler X_test =
          predictionsOn m st.scaler X_test := by
  refine ⟨(fn, ⟨m, st.scaler, n, st.best_accuracy⟩) :: store,
          ["Model saved: " ++ fn],
          ⟨st2.dataset_path, st2.models, st.scaler, some m,
           st.best_accuracy, some n⟩,
          ["Model loaded: " ++ n], ?_, ?_, hn.symm, rfl, m, rfl,
          fun _ => rfl⟩
  · simp [SDNMLTrainer.save_model, hm, hn]
  · simp [SDNMLTrainer.load_model, List.lookup]

/-- Witness for C2 at a concrete trained state. -/
theorem C2_witness :
    ∃ store1 log1 st' log2,
      ({ SDNMLTrainer.init "p" with
          best_model := some ⟨fun r => r.headI, none⟩,
          best_model_name := some "Decision Tree",
          best_accuracy := 1/2 } : SDNMLTrainer).save_model
        "sdn_best_model.pkl" [] = .ok (store1, log1) ∧
      (SDNMLTrainer.init "q").load_model "sdn_best_model.pkl" store1 =
        .ok (st', log2) ∧
      st'.best_model_name =
        ({ SDNMLTrainer.init "p" with
            best_model := some ⟨fun r => r.headI, none⟩,
            best_model_name := some "Decision Tree",
            best_accuracy := 1/2 } : SDNMLTrainer).best_model_name ∧
      st'.best_accuracy = 1/2 ∧
      ∃ m', st'.best_model = some m' ∧
        ∀ X_test, predictionsOn m' st'.scaler X_test =
          predictionsOn ⟨fun r => r.headI, none⟩ StandardScaler.unfitted
            X_test :=
  C2_save_load_roundtrip _ (SDNMLTrainer.init "q") "sdn_best_model.pkl" []
    ⟨fun r => r.headI, none⟩ "Decision Tree" rfl rfl

/-- C3: when the dataset fails to load (`None`) or has fewer than 10 rows,
`main` aborts before training with the user-facing insufficient-data
message: the trainer stays in its initial state (nothing trained, empty
registry), no chart file is produced, and the artifact store is returned
unchanged — in particular `sdn_best_model.pkl` is not written. -/
theorem C3_min_row_guard (sq : ℚ → ℚ) (variants : List (String × ModelSpec))
    (fs : String → Option DataFrame) (store : Store)
    (h : fs "sdn_dataset.csv" = none ∨
         ∃ df, fs "sdn_dataset.csv" = some df ∧ df.rows.length < 10) :
    mainRun sq variants fs store =
      .ok ⟨SDNMLTrainer.init "sdn_dataset.csv", store, insufficientMsgs, [],
           none⟩ := by
  rcases h with h | ⟨df, hdf, hlen⟩
  · simp [mainRun, SDNMLTrainer.load_data, SDNMLTrainer.init, h]
  · simp [mainRun, SDNMLTrainer.load_data, SDNMLTrainer.init, hdf, hlen]

/-- Witness for C3: an unreadable dataset path. -/
theorem C3_witness :
    ((fun _ => none : String → Option DataFrame) "sdn_dataset.csv" = none ∨
      ∃ df, (fun _ => none : String → Option DataFrame) "sdn_dataset.csv" =
          some df ∧ df.rows.length < 10) ∧
    mainRun id [] (fun _ => none) [] =
      .ok ⟨SDNMLTrainer.init "sdn_dataset.csv", [], insufficientMsgs, [],
           none⟩ :=
  ⟨Or.inl rfl, C3_min_row_guard id [] (fun _ => none) [] (Or.inl rfl)⟩

/-- C4: whenever `preprocess_data` succeeds, the scaler held in the
resulting trainer state is exactly the scaler fitted (once) on the train
partition's features — its parameters derive from the train rows only —
and both returned scaled matrices are pure transforms under those fixed
parameters; moreover `predict_path` returns the state (hence the scaler)
unchanged, so single-sample prediction only transforms and never refits. -/
theorem C4_scaler_fit_train_only (sq : ℚ → ℚ) (st st' : SDNMLTrainer)
    (df : DataFrame) (out : PrepOut)
    (h : st.preprocess_data sq df = .ok (st', out)) :
    st'.scaler = StandardScaler.fitOn sq out.X_train ∧
    out.X_train_scaled = st'.scaler.transform out.X_train ∧
    out.X_test_scaled = st'.scaler.transform out.X_test ∧
    ∀ a b c d e f g : ℚ,
      (st'.predict_path a b c d e f g).1.scaler = st'.scaler := by
  unfold SDNMLTrainer.preprocess_data at h
  cases hX : df.selectCols feature_cols with
  | error e => rw [hX] at h; exact absurd h (by simp)
  | ok X =>
    cases hy : df.selectCol target_col with
    | error e => rw [hX, hy] at h; exact absurd h (by simp)
    | ok y =>
      rw [hX, hy] at h
      simp only [Except.ok.injEq, Prod.mk.injEq] at h
      obtain ⟨h1, h2⟩ := h
      subst h1
      subst h2
      refine ⟨rfl, rfl, rfl, ?_⟩
      intro a b c d e f g
      rw [predict_path_state_id]

/-- Witness for C4: a concrete ten-row table with the full schema. -/
theorem C4_witness :
    ∃ st' out,
      (SDNMLTrainer.init "p").preprocess_data id
          ⟨["src_addr", "dest_addr", "src_battery", "dest_battery",
            "path_distance", "path_delay", "path_quality", "chosen_path"],
           List.replicate 10 [1, 2, 85, 90, 50, 1/20, 75, 0]⟩ =
        .ok (st', out) ∧
      st'.scaler = StandardScaler.fitOn id out.X_train ∧
      out.X_train_scaled = st'.scaler.transform out.X_train ∧
      out.X_test_scaled = st'.scaler.transform out.X_test ∧
      ∀ a b c d e f g : ℚ,
        (st'.predict_path a b c d e f g).1.scaler = st'.scaler := by
  obtain ⟨st', out, h⟩ :
      ∃ st' out,
        (SDNMLTrainer.init "p").preprocess_data id
            ⟨["src_addr", "dest_addr", "src_battery", "dest_battery",
              "path_distance", "path_delay", "path_quality", "chosen_path"],
             List.replicate 10 [1, 2, 85, 90, 50, 1/20, 75, 0]⟩ =
          .ok (st', out) := ⟨_, _, rfl⟩
  exact ⟨st', out, h, C4_scaler_fit_train_only id _ st' _ out h⟩

/-- C5: on a table missing at least one required column (a feature column
or the target), `preprocess_data` fails immediately at column selection
with a `KeyError` that names only genuinely missing required columns — a
clear schema-mismatch error rather than an unrelated downstream failure. -/
theorem C5_missing_column_keyerror (sq : ℚ → ℚ) (st : SDNMLTrainer)
    (df : DataFrame)
    (h : ∃ c ∈ feature_cols ++ [target_col], c ∉ df.cols) :
    ∃ ms, st.preprocess_data sq df = .error (.keyError ms) ∧ ms ≠ [] ∧
      ∀ c ∈ ms, c ∈ feature_cols ++ [target_col] ∧ c ∉ df.cols := by
  obtain ⟨c, hc, hnotin⟩ := h
  by_cases hfs : feature_cols.filter (fun c => !(df.cols.contains c)) = []
  · -- every feature column is present, so the target column is the missing
    -- one and the single-column selection raises the KeyError
    have hct : c = target_col := by
      rcases List.mem_append.mp hc with hcf | hct
      · exfalso
        have hmemf : c ∈ feature_cols.filter (fun c => !(df.cols.contains c)) :=
          List.mem_filter.mpr ⟨hcf, by simp [hnotin]⟩
        rw [hfs] at hmemf
        exact absurd hmemf (List.not_mem_nil c)
      · simpa using hct
    subst hct
    obtain ⟨X, hsel⟩ : ∃ X, df.selectCols feature_cols = .ok X := by
      unfold DataFrame.selectCols
      rw [hfs]
      exact ⟨_, rfl⟩
    have hcond : ¬ (df.cols.contains target_col = true) := by
      simpa using hnotin
    have hsel2 : df.selectCol target_col = .error (.keyError [target_col]) := by
      unfold DataFrame.selectCol
      rw [if_neg hcond]
    refine ⟨[target_col], ?_, by simp, ?_⟩
    · unfold SDNMLTrainer.preprocess_data
      rw [hsel, hsel2]
    · intro c' hc'
      have : c' = target_col := by simpa using hc'
      subst this
      exact ⟨by simp, hnotin⟩
  · -- some feature column is missing: the seven-column selection itself
    -- raises the KeyError naming exactly those columns
    have hsel : df.selectCols feature_cols =
        .error (.keyError (feature_cols.filter (fun c => !(df.cols.contains c)))) := by
      simp only [DataFrame.selectCols]
      rw [if_neg (by simpa [List.isEmpty_iff] using hfs)]
    refine ⟨feature_cols.filter (fun c => !(df.cols.contains c)), ?_, hfs, ?_⟩
    · unfold SDNMLTrainer.preprocess_data
      rw [hsel]
    · intro c' hc'
      have hmf := List.mem_filter.mp hc'
      refine ⟨List.mem_append.mpr (Or.inl hmf.1), ?_⟩
      simpa using hmf.2

/-- Witness for C5: a table whose `src_battery` column is absent. -/
theorem C5_witness :
    (∃ c ∈ feature_cols ++ [target_col],
        c ∉ (["src_addr", "dest_addr", "dest_battery", "path_distance",
              "path_delay", "path_quality", "chosen_path"] : List String)) ∧
    ∃ ms,
      (SDNMLTrainer.init "p").preprocess_data id
          ⟨["src_addr", "dest_addr", "dest_battery", "path_distance",
            "path_delay", "path_quality", "chosen_path"], []⟩ =
        .error (.keyError ms) ∧ ms ≠ [] ∧
      ∀ c ∈ ms, c ∈ feature_cols ++ [target_col] ∧
        c ∉ (⟨["src_addr", "dest_addr", "dest_battery", "path_distance",
               "path_delay", "path_quality", "chosen_path"], []⟩ :
              DataFrame).cols :=
  ⟨⟨"src_battery", by simp [feature_cols], by decide⟩,
   C5_missing_column_keyerror id (SDNMLTrainer.init "p") _
     ⟨"src_battery", by simp [feature_cols], by decide⟩⟩

/-- Unfolding of the best-model update when the new accuracy strictly
exceeds the running best. -/
theorem trainStep_pos (Xtr Xte : List (List ℚ)) (ytr yte : List ℚ)
    (st : SDNMLTrainer) (v : String × ModelSpec)
    (h : st.best_accuracy < variantAcc Xtr Xte ytr yte v) :
    trainStep Xtr Xte ytr yte st v =
      ⟨st.dataset_path, st.models, st.scaler,
       some (fitVariant Xtr ytr v), variantAcc Xtr Xte ytr yte v,
       some v.1⟩ := by
  simp only [trainStep]
  rw [if_pos h]

/-- Unfolding of the best-model update when the new accuracy does not
strictly exceed the running best: nothing changes. -/
theorem trainStep_neg (Xtr Xte : List (List ℚ)) (ytr yte : List ℚ)
    (st : SDNMLTrainer) (v : String × ModelSpec)
    (h : ¬ st.best_accuracy < variantAcc Xtr Xte ytr yte v) :
    trainStep Xtr Xte ytr yte st v = st := by
  simp only [trainStep]
  rw [if_neg h]

/-- The registry recorded by the training loop is exactly one entry per
variant, in iteration order, independent of the running-best state. -/
theorem trainLoop_results (Xtr Xte : List (List ℚ)) (ytr yte : List ℚ) :
    ∀ (vs : List (String × ModelSpec)) (st : SDNMLTrainer),
      (trainLoop Xtr Xte ytr yte vs st).2 =
        vs.map (fun v => (v.1, variantResult Xtr Xte ytr yte v)) := by
  intro vs
  induction vs with
  | nil => intro st; rfl
  | cons v vs ih =>
    intro st
    simp only [trainLoop, List.map_cons, List.cons.injEq]
    exact ⟨trivial, ih _⟩

/-- Characterisation of the running-best fold in the training loop: either
no variant beats the incoming best (and the best fields are unchanged), or
the selected variant is the first one to reach the maximum accuracy over
the incoming best and all variants. -/
theorem trainLoop_best_spec (Xtr Xte : List (List ℚ)) (ytr yte : List ℚ) :
    ∀ (vs : List (String × ModelSpec)) (st : SDNMLTrainer),
      ((∀ v ∈ vs, variantAcc Xtr Xte ytr yte v ≤ st.best_accuracy) ∧
       (trainLoop Xtr Xte ytr yte vs st).1.best_model = st.best_model ∧
       (trainLoop Xtr Xte ytr yte vs st).1.best_model_name =
         st.best_model_name ∧
       (trainLoop Xtr Xte ytr yte vs st).1.best_accuracy =
         st.best_accuracy) ∨
      (∃ i : ℕ, ∃ hi : i < vs.length,
       (trainLoop Xtr Xte ytr yte vs st).1.best_model_name =
         some (vs[i].1) ∧
       (trainLoop Xtr Xte ytr yte vs st).1.best_model =
         some (fitVariant Xtr ytr vs[i]) ∧
       (trainLoop Xtr Xte ytr yte vs st).1.best_accuracy =
         variantAcc Xtr Xte ytr yte vs[i] ∧
       st.best_accuracy < variantAcc Xtr Xte ytr yte vs[i] ∧
       (∀ j : ℕ, ∀ hj : j < vs.length,
         variantAcc Xtr Xte ytr yte vs[j] ≤
           variantAcc Xtr Xte ytr yte vs[i]) ∧
       (∀ j : ℕ, ∀ hj : j < vs.length, j < i →
         variantAcc Xtr Xte ytr yte vs[j] <
           variantAcc Xtr Xte ytr yte vs[i])) := by
  intro vs
  induction vs with
  | nil =>
    intro st
    left
    refine ⟨?_, rfl, rfl, rfl⟩
    intro v hv
    exact absurd hv (List.not_mem_nil v)
  | cons v vs ih =>
    intro st
    have hcons : (trainLoop Xtr Xte ytr yte (v :: vs) st).1 =
        (trainLoop Xtr Xte ytr yte vs
          (trainStep Xtr Xte ytr yte st v)).1 := rfl
    by_cases hlt : st.best_accuracy < variantAcc Xtr Xte ytr yte v
    · rw [hcons, trainStep_pos Xtr Xte ytr yte st v hlt]
      rcases ih ⟨st.dataset_path, st.models, st.scaler,
          some (fitVariant Xtr ytr v), variantAcc Xtr Xte ytr yte v,
          some v.1⟩ with
        ⟨hall, hm, hn, hb⟩ | ⟨i, hi, hn, hm, hb, hgt, hmax, hfirst⟩
      · right
        refine ⟨0, by simp, hn, hm, hb, hlt, ?_, ?_⟩
        · intro j hj
          match j, hj with
          | 0, _ => exact le_refl _
          | (k + 1), hj =>
            have hk : k < vs.length := Nat.lt_of_succ_lt_succ hj
            exact hall _ (List.getElem_mem hk)
        · intro j hj hj0
          exact absurd hj0 (Nat.not_lt_zero j)
      · right
        refine ⟨i + 1, Nat.succ_lt_succ hi, hn, hm, hb,
                lt_trans hlt hgt, ?_, ?_⟩
        · intro j hj
          match j, hj with
          | 0, _ => exact le_of_lt hgt
          | (k + 1), hj =>
            exact hmax k (Nat.lt_of_succ_lt_succ hj)
        · intro j hj hji
          match j, hj, hji with
          | 0, _, _ => exact hgt
          | (k + 1), hj, hji =>
            exact hfirst k (Nat.lt_of_succ_lt_succ hj)
              (Nat.lt_of_succ_lt_succ hji)
    · rw [hcons, trainStep_neg Xtr Xte ytr yte st v hlt]
      rcases ih st with
        ⟨hall, hm, hn, hb⟩ | ⟨i, hi, hn, hm, hb, hgt, hmax, hfirst⟩
      · left
        refine ⟨?_, hm, hn, hb⟩
        intro v' hv'
        rcases List.mem_cons.mp hv' with rfl | hv'mem
        · exact le_of_not_lt hlt
        · exact hall v' hv'mem
      · right
        refine ⟨i + 1, Nat.succ_lt_succ hi, hn, hm, hb, hgt, ?_, ?_⟩
        · intro j hj
          match j, hj with
          | 0, _ => exact le_of_lt (lt_of_le_of_lt (le_of_not_lt hlt) hgt)
          | (k + 1), hj =>
            exact hmax k (Nat.lt_of_succ_lt_succ hj)
        · intro j hj hji
          match j, hj, hji with
          | 0, _, _ => exact lt_of_le_of_lt (le_of_not_lt hlt) hgt
          | (k + 1), hj, hji =>
            exact hfirst k (Nat.lt_of_succ_lt_succ hj)
              (Nat.lt_of_succ_lt_succ hji)

/-- C1 counterexample: with a single-variant list whose test accuracy is
exactly 0, no variant is ever selected — `best_model_name` and `best_model`
stay unset because 0 is not strictly greater than the initial best of 0.0 —
even though that variant attains the maximum accuracy, contradicting the
claim that the selected best is always the argmax variant. -/
theorem C1_counterexample :
    (SDNMLTrainer.train_models
        [("Random Forest", fun _ _ => ⟨fun _ => 0, none⟩)]
        [[1]] [[1]] [0] [1]
        (SDNMLTrainer.init "sdn_dataset.csv")).1.best_model_name = none ∧
    (SDNMLTrainer.train_models
        [("Random Forest", fun _ _ => ⟨fun _ => 0, none⟩)]
        [[1]] [[1]] [0] [1]
        (SDNMLTrainer.init "sdn_dataset.csv")).1.best_model = none ∧
    variantAcc [[1]] [[1]] [0] [1]
        ("Random Forest", fun _ _ => ⟨fun _ => 0, none⟩) = 0 := by
  have hacc : variantAcc [[1]] [[1]] [0] [1]
      ("Random Forest", fun _ _ => ⟨fun _ => 0, none⟩) = 0 := by
    norm_num [variantAcc, variantResult, accuracy_score, fitVariant]
  have hstep : trainStep [[1]] [[1]] [0] [1]
      (SDNMLTrainer.init "sdn_dataset.csv")
      ("Random Forest", fun _ _ => ⟨fun _ => 0, none⟩) =
      SDNMLTrainer.init "sdn_dataset.csv" := by
    refine trainStep_neg _ _ _ _ _ _ ?_
    rw [hacc]
    simp [SDNMLTrainer.init]
  have h1 : (SDNMLTrainer.train_models
      [("Random Forest", fun _ _ => ⟨fun _ => 0, none⟩)]
      [[1]] [[1]] [0] [1]
      (SDNMLTrainer.init "sdn_dataset.csv")).1.best_model_name =
      (trainStep [[1]] [[1]] [0] [1]
        (SDNMLTrainer.init "sdn_dataset.csv")
        ("Random Forest", fun _ _ => ⟨fun _ => 0, none⟩)).best_model_name :=
    rfl
  have h2 : (SDNMLTrainer.train_models
      [("Random Forest", fun _ _ => ⟨fun _ => 0, none⟩)]
      [[1]] [[1]] [0] [1]
      (SDNMLTrainer.init "sdn_dataset.csv")).1.best_model =
      (trainStep [[1]] [[1]] [0] [1]
        (SDNMLTrainer.init "sdn_dataset.csv")
        ("Random Forest", fun _ _ => ⟨fun _ => 0, none⟩)).best_model :=
    rfl
  refine ⟨?_, ?_, hacc⟩
  · rw [h1, hstep]
    rfl
  · rw [h2, hstep]
    rfl

/-- C1 (amended): for every training run over a fixed variant list from the
freshly initialised trainer, provided at least one variant scores strictly
positive test accuracy, the selected best model is the variant with the
maximum test accuracy, and on exact accuracy ties the first-seen variant in
iteration order wins (every strictly earlier variant scores strictly
lower).  (When every variant scores exactly 0.0, no best is selected — see
the counterexample and C9.) -/
theorem C1_best_is_first_argmax (variants : List (String × ModelSpec))
    (Xtr Xte : List (List ℚ)) (ytr yte : List ℚ) (path : String)
    (hpos : ∃ v ∈ variants, 0 < variantAcc Xtr Xte ytr yte v) :
    ∃ i : ℕ, ∃ hi : i < variants.length,
      (SDNMLTrainer.train_models variants Xtr Xte ytr yte
          (SDNMLTrainer.init path)).1.best_model_name =
        some (variants[i].1) ∧
      (SDNMLTrainer.train_models variants Xtr Xte ytr yte
          (SDNMLTrainer.init path)).1.best_model =
        some (fitVariant Xtr ytr variants[i]) ∧
      (SDNMLTrainer.train_models variants Xtr Xte ytr yte
          (SDNMLTrainer.init path)).1.best_accuracy =
        variantAcc Xtr Xte ytr yte variants[i] ∧
      (∀ j : ℕ, ∀ hj : j < variants.length,
        variantAcc Xtr Xte ytr yte variants[j] ≤
          variantAcc Xtr Xte ytr yte variants[i]) ∧
      (∀ j : ℕ, ∀ hj : j < variants.length, j < i →
        variantAcc Xtr Xte ytr yte variants[j] <
          variantAcc Xtr Xte ytr yte variants[i]) := by
  obtain ⟨v, hv, hvpos⟩ := hpos
  rcases trainLoop_best_spec Xtr Xte ytr yte variants
      (SDNMLTrainer.init path) with
    ⟨hall, _, _, _⟩ | ⟨i, hi, hn, hm, hb, _, hmax, hfirst⟩
  · exact absurd (hall v hv) (not_le.mpr hvpos)
  · exact ⟨i, hi, hn, hm, hb, hmax, hfirst⟩

/-- Witness for C1 at a concrete two-variant list where the second variant
scores accuracy 1 and the first scores 0. -/
theorem C1_witness :
    (∃ v ∈ ([("Random Forest", fun _ _ => ⟨fun _ => 0, none⟩),
             ("K-Nearest Neighbors", fun _ _ => ⟨fun _ => 1, none⟩)] :
            List (String × ModelSpec)),
       0 < variantAcc [[2]] [[2]] [1] [1] v) ∧
    ∃ i : ℕ, ∃ hi : i <
        ([("Random Forest", fun _ _ => ⟨fun _ => 0, none⟩),
          ("K-Nearest Neighbors", fun _ _ => ⟨fun _ => 1, none⟩)] :
         List (String × ModelSpec)).length,
      (SDNMLTrainer.train_models
          [("Random Forest", fun _ _ => ⟨fun _ => 0, none⟩),
           ("K-Nearest Neighbors", fun _ _ => ⟨fun _ => 1, none⟩)]
          [[2]] [[2]] [1] [1]
          (SDNMLTrainer.init "p")).1.best_model_name =
        some (([("Random Forest", fun _ _ => ⟨fun _ => 0, none⟩),
                ("K-Nearest Neighbors", fun _ _ => ⟨fun _ => 1, none⟩)] :
               List (String × ModelSpec))[i].1) ∧
      (SDNMLTrainer.train_models
          [("Random Forest", fun _ _ => ⟨fun _ => 0, none⟩),
           ("K-Nearest Neighbors", fun _ _ => ⟨fun _ => 1, none⟩)]
          [[2]] [[2]] [1] [1]
          (SDNMLTrainer.init "p")).1.best_model =
        some (fitVariant [[2]] [1]
          (([("Random Forest", fun _ _ => ⟨fun _ => 0, none⟩),
             ("K-Nearest Neighbors", fun _ _ => ⟨fun _ => 1, none⟩)] :
            List (String × ModelSpec))[i])) ∧
      (SDNMLTrainer.train_models
          [("Random Forest", fun _ _ => ⟨fun _ => 0, none⟩),
           ("K-Nearest Neighbors", fun _ _ => ⟨fun _ => 1, none⟩)]
          [[2]] [[2]] [1] [1]
          (SDNMLTrainer.init "p")).1.best_accuracy =
        variantAcc [[2]] [[2]] [1] [1]
          (([("Random Forest", fun _ _ => ⟨fun _ => 0, none⟩),
             ("K-Nearest Neighbors", fun _ _ => ⟨fun _ => 1, none⟩)] :
            List (String × ModelSpec))[i]) ∧
      (∀ j : ℕ, ∀ hj : j <
          ([("Random Forest", fun _ _ => ⟨fun _ => 0, none⟩),
            ("K-Nearest Neighbors", fun _ _ => ⟨fun _ => 1, none⟩)] :
           List (String × ModelSpec)).length,
        variantAcc [[2]] [[2]] [1] [1]
            (([("Random Forest", fun _ _ => ⟨fun _ => 0, none⟩),
               ("K-Nearest Neighbors", fun _ _ => ⟨fun _ => 1, none⟩)] :
              List (String × ModelSpec))[j]) ≤
          variantAcc [[2]] [[2]] [1] [1]
            (([("Random Forest", fun _ _ => ⟨fun _ => 0, none⟩),
               ("K-Nearest Neighbors", fun _ _ => ⟨fun _ => 1, none⟩)] :
              List (String × ModelSpec))[i])) ∧
      (∀ j : ℕ, ∀ hj : j <
          ([("Random Forest", fun _ _ => ⟨fun _ => 0, none⟩),
            ("K-Nearest Neighbors", fun _ _ => ⟨fun _ => 1, none⟩)] :
           List (String × ModelSpec)).length, j < i →
        variantAcc [[2]] [[2]] [1] [1]
            (([("Random Forest", fun _ _ => ⟨fun _ => 0, none⟩),
               ("K-Nearest Neighbors", fun _ _ => ⟨fun _ => 1, none⟩)] :
              List (String × ModelSpec))[j]) <
          variantAcc [[2]] [[2]] [1] [1]
            (([("Random Forest", fun _ _ => ⟨fun _ => 0, none⟩),
               ("K-Nearest Neighbors", fun _ _ => ⟨fun _ => 1, none⟩)] :
              List (String × ModelSpec))[i])) := by
  have hpos : ∃ v ∈ ([("Random Forest", fun _ _ => ⟨fun _ => 0, none⟩),
      ("K-Nearest Neighbors", fun _ _ => ⟨fun _ => 1, none⟩)] :
      List (String × ModelSpec)),
      0 < variantAcc [[2]] [[2]] [1] [1] v := by
    refine ⟨("K-Nearest Neighbors", fun _ _ => ⟨fun _ => 1, none⟩),
            by simp,
            by norm_num [variantAcc, variantResult, accuracy_score,
                         fitVariant]⟩
  exact ⟨hpos, C1_best_is_first_argmax _ [[2]] [[2]] [1] [1] "p" hpos⟩

/-- C9: when every trained variant scores test accuracy exactly 0.0, the
running best (initialised to 0.0 and replaced only on strictly greater
accuracy) is never updated: `train_models` finishes with the best model
still `None` and the best-model name never set, even though a result entry
per variant is recorded in the registry. -/
theorem C9_all_zero_accuracy_selects_none
    (variants : List (String × ModelSpec))
    (Xtr Xte : List (List ℚ)) (ytr yte : List ℚ) (path : String)
    (hz : ∀ v ∈ variants, variantAcc Xtr Xte ytr yte v = 0) :
    (SDNMLTrainer.train_models variants Xtr Xte ytr yte
        (SDNMLTrainer.init path)).1.best_model = none ∧
    (SDNMLTrainer.train_models variants Xtr Xte ytr yte
        (SDNMLTrainer.init path)).1.best_model_name = none ∧
    (SDNMLTrainer.train_models variants Xtr Xte ytr yte
        (SDNMLTrainer.init path)).1.best_accuracy = 0 ∧
    (SDNMLTrainer.train_models variants Xtr Xte ytr yte
        (SDNMLTrainer.init path)).1.models =
      variants.map (fun v => (v.1, variantResult Xtr Xte ytr yte v)) := by
  have hmodels : (SDNMLTrainer.train_models variants Xtr Xte ytr yte
      (SDNMLTrainer.init path)).1.models =
      variants.map (fun v => (v.1, variantResult Xtr Xte ytr yte v)) :=
    trainLoop_results Xtr Xte ytr yte variants (SDNMLTrainer.init path)
  rcases trainLoop_best_spec Xtr Xte ytr yte variants
      (SDNMLTrainer.init path) with
    ⟨_, hm, hn, hb⟩ | ⟨i, hi, _, _, _, hgt, _, _⟩
  · exact ⟨hm, hn, hb, hmodels⟩
  · exfalso
    have h0 : variantAcc Xtr Xte ytr yte variants[i] = 0 :=
      hz _ (List.getElem_mem hi)
    rw [h0] at hgt
    exact absurd hgt (by simp [SDNMLTrainer.init])

/-- Witness for C9: two variants that both mispredict the whole test
partition. -/
theorem C9_witness :
    (∀ v ∈ ([("Random Forest", fun _ _ => ⟨fun _ => 0, none⟩),
             ("SVM", fun _ _ => ⟨fun _ => 2, none⟩)] :
            List (String × ModelSpec)),
       variantAcc [[5]] [[5]] [1] [1] v = 0) ∧
    (SDNMLTrainer.train_models
        [("Random Forest", fun _ _ => ⟨fun _ => 0, none⟩),
         ("SVM", fun _ _ => ⟨fun _ => 2, none⟩)]
        [[5]] [[5]] [1] [1]
        (SDNMLTrainer.init "p")).1.best_model = none ∧
    (SDNMLTrainer.train_models
        [("Random Forest", fun _ _ => ⟨fun _ => 0, none⟩),
         ("SVM", fun _ _ => ⟨fun _ => 2, none⟩)]
        [[5]] [[5]] [1] [1]
        (SDNMLTrainer.init "p")).1.best_model_name = none ∧
    (SDNMLTrainer.train_models
        [("Random Forest", fun _ _ => ⟨fun _ => 0, none⟩),
         ("SVM", fun _ _ => ⟨fun _ => 2, none⟩)]
        [[5]] [[5]] [1] [1]
        (SDNMLTrainer.init "p")).1.best_accuracy = 0 ∧
    (SDNMLTrainer.train_models
        [("Random Forest", fun _ _ => ⟨fun _ => 0, none⟩),
         ("SVM", fun _ _ => ⟨fun _ => 2, none⟩)]
        [[5]] [[5]] [1] [1]
        (SDNMLTrainer.init "p")).1.models =
      ([("Random Forest", fun _ _ => ⟨fun _ => 0, none⟩),
        ("SVM", fun _ _ => ⟨fun _ => 2, none⟩)] :
       List (String × ModelSpec)).map
        (fun v => (v.1, variantResult [[5]] [[5]] [1] [1] v)) := by
  have hz : ∀ v ∈ ([("Random Forest", fun _ _ => ⟨fun _ => 0, none⟩),
      ("SVM", fun _ _ => ⟨fun _ => 2, none⟩)] :
      List (String × ModelSpec)),
      variantAcc [[5]] [[5]] [1] [1] v = 0 := by
    intro v hv
    rcases List.mem_cons.mp hv with rfl | hv
    · norm_num [variantAcc, variantResult, accuracy_score, fitVariant]
    · rcases List.mem_cons.mp hv with rfl | hv
      · norm_num [variantAcc, variantResult, accuracy_score, fitVariant]
      · exact absurd hv (List.not_mem_nil v)
  exact ⟨hz, C9_all_zero_accuracy_selects_none _ [[5]] [[5]] [1] [1] "p" hz⟩

/-- C8: the feature-importance report (with `feature_importance.png`) is
produced exactly when the best model's name is one of the two tree-based
variants; for every other best model the step does nothing — no output and
no error.  The hypothesis records the library fact that the tree-based
estimators expose `feature_importances_`. -/
theorem C8_feature_importance_iff_tree (st : SDNMLTrainer)
    (featureNames : List String) (n : String) (m : FittedModel)
    (hn : st.best_model_name = some n) (hm : st.best_model = some m)
    (hcap : n ∈ (["Random Forest", "Decision Tree"] : List String) →
      m.featureImportances.isSome = true) :
    ∃ r, st.feature_importance featureNames = .ok r ∧
      (n ∈ (["Random Forest", "Decision Tree"] : List String) →
        ∃ rep, r = some rep ∧ rep.file = "feature_importance.png") ∧
      (n ∉ (["Random Forest", "Decision Tree"] : List String) →
        r = none) := by
  by_cases htree : n ∈ (["Random Forest", "Decision Tree"] : List String)
  · obtain ⟨imp, himp⟩ := Option.isSome_iff_exists.mp (hcap htree)
    refine ⟨some ⟨importanceRanking featureNames imp,
                  "feature_importance.png"⟩, ?_, ?_, ?_⟩
    · simp [SDNMLTrainer.feature_importance, hn, hm, himp, htree]
    · intro _
      exact ⟨_, rfl, rfl⟩
    · intro hcontra
      exact absurd htree hcontra
  · refine ⟨none, ?_, ?_, fun _ => rfl⟩
    · simp [SDNMLTrainer.feature_importance, hn, hm, htree]
    · intro hcontra
      exact absurd hcontra htree

/-- Witness for C8: a tree-based best model with importances, and a
margin-based best model without them. -/
theorem C8_witness :
    ∃ r, SDNMLTrainer.feature_importance
        ⟨"p", [], StandardScaler.unfitted,
         some ⟨fun _ => 0, some [1, 2, 3, 4, 5, 6, 7]⟩, 1,
         some "Random Forest"⟩ feature_cols = .ok r ∧
      ("Random Forest" ∈ (["Random Forest", "Decision Tree"] :
          List String) →
        ∃ rep, r = some rep ∧ rep.file = "feature_importance.png") ∧
      ("Random Forest" ∉ (["Random Forest", "Decision Tree"] :
          List String) → r = none) :=
  C8_feature_importance_iff_tree
    ⟨"p", [], StandardScaler.unfitted,
     some ⟨fun _ => 0, some [1, 2, 3, 4, 5, 6, 7]⟩, 1,
     some "Random Forest"⟩ feature_cols "Random Forest"
    ⟨fun _ => 0, some [1, 2, 3, 4, 5, 6, 7]⟩ rfl rfl (fun _ => rfl)
